import Mathlib

/-!
Verification of the PartSelect agent query-understanding pipeline.

The development shallowly embeds the scope filter, intent classifier,
parameter extractor, context resolver and orchestrator of the agent
(`src/server/modules/validators.py` and `src/server/agents/part_agent.py`)
as executable Lean functions over `List Char`, and proves or refutes the
frozen specification claims about them.

Conventions:
* Python strings are `List Char`; `cs` converts a Lean string literal.
* Python `re.search`/`re.findall` on the handful of concrete patterns the
  source uses are embedded as explicit backtracking matchers that follow
  the leftmost / greedy-with-backtracking semantics of the `re` module.
* Mutable agent state (`conversation_context`) is the explicit `Ctx`
  record threaded through `processQuery`.
* External collaborators (the LangChain tools, the optional LLM
  classifier, and `json.loads`) are parameters of the `Tools` record;
  fallible calls return `Except`.
-/

/-- Convert a string literal to the `List Char` representation used throughout. -/
def cs (s : String) : List Char := s.data

/-- The apostrophe character (several source keywords and messages contain it). -/
def apC : Char := Char.ofNat 39

/-- Apostrophe as a one-character string piece. -/
def apS : List Char := [apC]

/-- ASCII lower-casing of one character (Python `str.lower` on the ASCII inputs used here). -/
def lc (c : Char) : Char :=
  if 'A' ≤ c ∧ c ≤ 'Z' then Char.ofNat (c.toNat + 32) else c

/-- Python `str.lower()`. -/
def lower (s : List Char) : List Char := s.map lc

/-- Is `p` a prefix of `s` (decidable, executable). -/
def lPre : List Char → List Char → Bool
  | [], _ => true
  | _ :: _, [] => false
  | a :: p, b :: s => a = b && lPre p s

/-- Python `needle in hay` substring test. -/
def containsSub : List Char → List Char → Bool
  | hay, needle =>
    match hay with
    | [] => lPre needle []
    | _ :: t => lPre needle hay || containsSub t needle

/-- Python `hay.startswith(needle)`. -/
def startsWithL (hay needle : List Char) : Bool := lPre needle hay

/-- Python `hay.endswith(needle)`. -/
def endsWithL (hay needle : List Char) : Bool := lPre needle.reverse hay.reverse

/-- Whitespace characters recognised by Python `str.split()` / `str.strip()` on our inputs. -/
def isWs (c : Char) : Bool := c = ' ' || c = '\t' || c = '\n' || c = '\r'

/-- Python `str.split()` with no argument: split on whitespace runs, dropping empties. -/
def wordsAux : List Char → List Char → List (List Char)
  | [], acc => if acc = [] then [] else [acc.reverse]
  | c :: t, acc =>
    if isWs c then (if acc = [] then wordsAux t [] else acc.reverse :: wordsAux t [])
    else wordsAux t (c :: acc)

/-- Split into whitespace-separated words. -/
def words (s : List Char) : List (List Char) := wordsAux s []

/-- Drop leading whitespace. -/
def dropWs (s : List Char) : List Char := s.dropWhile isWs

/-- Python `str.strip()`. -/
def strip (s : List Char) : List Char := (dropWs (dropWs s).reverse).reverse

/-- ASCII letter test (`[a-zA-Z]`). -/
def isLet (c : Char) : Bool := ('a' ≤ c && c ≤ 'z') || ('A' ≤ c && c ≤ 'Z')

/-- ASCII uppercase test (`[A-Z]`). -/
def isUp (c : Char) : Bool := 'A' ≤ c && c ≤ 'Z'

/-- ASCII digit test (`\d`). -/
def isDig (c : Char) : Bool := '0' ≤ c && c ≤ '9'

/-- `[a-zA-Z0-9]`. -/
def isAlnum (c : Char) : Bool := isLet c || isDig c

/-- `[A-Z0-9]`. -/
def isUpDig (c : Char) : Bool := isUp c || isDig c

/-- Regex word character `\w` = `[A-Za-z0-9_]`. -/
def isWordC (c : Char) : Bool := isAlnum c || c = '_'

/-- Length of the maximal prefix of `s` whose characters satisfy `p`. -/
def runLen (p : Char → Bool) : List Char → Nat
  | [] => 0
  | c :: t => if p c then runLen p t + 1 else 0

/-- Descending list `[hi, hi-1, ..., lo]` (empty when `hi < lo`):
the order in which a greedy regex quantifier tries repetition counts. -/
def descRange (hi lo : Nat) : List Nat :=
  (List.range (hi + 1 - lo)).map (fun k => hi - k)

/-- Consume exactly `n` characters satisfying `p`, returning the rest. -/
def takeCls (p : Char → Bool) : Nat → List Char → Option (List Char)
  | 0, s => some s
  | _ + 1, [] => none
  | n + 1, c :: t => if p c then takeCls p n t else none

/-- Greedy character-class quantifier with backtracking: try each count in
`counts` in order; on the first count whose consumption lets the
continuation `k` succeed, return the total matched length. -/
def tryCounts (p : Char → Bool) : List Nat → List Char → (List Char → Option Nat) → Option Nat
  | [], _, _ => none
  | n :: rest, s, k =>
    match takeCls p n s with
    | some s1 =>
      match k s1 with
      | some m => some (n + m)
      | none => tryCounts p rest s k
    | none => tryCounts p rest s k

/-- Trailing `\b` test: the next character (if any) is not a word character.
All patterns using it end in a word character, so this is the full test. -/
def bAfter : List Char → Bool
  | [] => true
  | c :: _ => !isWordC c

/-- Python `re.search`: return the text of the leftmost match of `mAt`. -/
def searchFrom (mAt : List Char → Option Nat) : List Char → Option (List Char)
  | [] => (mAt []).map (fun n => ([] : List Char).take n)
  | c :: t =>
    match mAt (c :: t) with
    | some n => some ((c :: t).take n)
    | none => searchFrom mAt t

/-- Matcher for the part-number pattern `[a-zA-Z]{0,3}\d{4,10}[a-zA-Z0-9]{0,5}`
anchored at the head of the input, returning the match length. -/
def partNumAt (s : List Char) : Option Nat :=
  tryCounts isLet (descRange 3 0) s fun s1 =>
    tryCounts isDig (descRange 10 4) s1 fun s2 =>
      tryCounts isAlnum (descRange 5 0) s2 fun _ => some 0

/-- `re.search` of the part-number pattern (used by the lookup, compatibility
and cart extractors on the raw query text). -/
def partSearch (s : List Char) : Option (List Char) := searchFrom partNumAt s

/-- Matcher for the model-number pattern `[a-zA-Z]{2,5}\d{3,7}[a-zA-Z0-9]{0,5}`. -/
def modelNumAt (s : List Char) : Option Nat :=
  tryCounts isLet (descRange 5 2) s fun s1 =>
    tryCounts isDig (descRange 7 3) s1 fun s2 =>
      tryCounts isAlnum (descRange 5 0) s2 fun _ => some 0

/-- `re.search` of the model-number pattern. -/
def modelSearch (s : List Char) : Option (List Char) := searchFrom modelNumAt s

/-- `MODEL_PATTERNS[0]`: `\b[A-Z]{2,4}\d{2,4}[A-Z0-9]{0,6}\b` (without the leading
boundary, which the findall scanner checks). -/
def mp1At (s : List Char) : Option Nat :=
  tryCounts isUp (descRange 4 2) s fun s1 =>
    tryCounts isDig (descRange 4 2) s1 fun s2 =>
      tryCounts isUpDig (descRange 6 0) s2 fun s3 =>
        if bAfter s3 then some 0 else none

/-- `MODEL_PATTERNS[1]`: `\b[A-Z]{1,2}\d{1,2}[A-Z]{1,2}\d{1,4}[A-Z]{0,2}\b`. -/
def mp2At (s : List Char) : Option Nat :=
  tryCounts isUp (descRange 2 1) s fun s1 =>
    tryCounts isDig (descRange 2 1) s1 fun s2 =>
      tryCounts isUp (descRange 2 1) s2 fun s3 =>
        tryCounts isDig (descRange 4 1) s3 fun s4 =>
          tryCounts isUp (descRange 2 0) s4 fun s5 =>
            if bAfter s5 then some 0 else none

/-- `MODEL_PATTERNS[2]`: `\b\d{2,3}[.]\d\b`. -/
def mp3At (s : List Char) : Option Nat :=
  tryCounts isDig (descRange 3 2) s fun s1 =>
    match s1 with
    | c :: s2 =>
      if c = '.' then
        (tryCounts isDig [1] s2 fun s3 => if bAfter s3 then some 0 else none).map (· + 1)
      else none
    | [] => none

/-- Leading `\b` test for the findall scanner: the previous character (if any)
is not a word character (all three patterns begin with a word character). -/
def bBefore : Option Char → Bool
  | none => true
  | some p => !isWordC p

/-- Fuel-driven `re.findall` scan: at each position with a valid leading word
boundary try `mAt`; on a match record it and resume after its end
(non-overlapping), otherwise advance one character. -/
def findallB (mAt : List Char → Option Nat) : Nat → Option Char → List Char → List (List Char)
  | 0, _, _ => []
  | _ + 1, _, [] => []
  | fuel + 1, prev, c :: t =>
    if bBefore prev then
      match mAt (c :: t) with
      | some n =>
        (c :: t).take n :: findallB mAt fuel (((c :: t).take n).getLastD c) ((c :: t).drop n)
      | none => findallB mAt fuel (some c) t
    else findallB mAt fuel (some c) t

/-- `pattern.findall(text)` for the boundary-anchored model patterns. -/
def findallP (mAt : List Char → Option Nat) (s : List Char) : List (List Char) :=
  findallB mAt (s.length + 1) none s

/-- `MODEL_PREFIXES` from `validators.py`. -/
def modelPrefList : List (List Char) :=
  [cs "GDF", cs "GDT", cs "WDF", cs "WDT", cs "MDB", cs "PD", cs "LDF", cs "LDT",
   cs "DW", cs "FD", cs "RF", cs "WRF", cs "WRS", cs "GSS", cs "GSL", cs "GTS",
   cs "GTH", cs "WRX"]

/-- The model-number acceptance rule of `is_in_scope`: some findall match of one
of the three patterns starts with a known prefix or has length at least 8. -/
def modelRuleFires (t : List Char) : Bool :=
  [mp1At, mp2At, mp3At].any fun mAt =>
    (findallP mAt t).any fun m =>
      modelPrefList.any (fun p => startsWithL m p) || decide (8 ≤ m.length)

/-- `APPLIANCE_KEYWORDS` from `validators.py`. -/
def applianceKwList : List (List Char) :=
  [cs "refrigerator", cs "fridge", cs "freezer", cs "ice maker", cs "ice dispenser",
   cs "water dispenser", cs "water filter", cs "fridge drawer", cs "crisper",
   cs "refrigeration", cs "cooling", cs "compressor", cs "condenser", cs "evaporator",
   cs "freon", cs "coolant", cs "temperature control", cs "defrost",
   cs "dishwasher", cs "dish washer", cs "dish", cs "dishes", cs "rinse",
   cs "wash cycle", cs "spray arm", cs "detergent dispenser", cs "rack",
   cs "silverware basket", cs "drain pump", cs "rinse aid", cs "dishwashing",
   cs "dry cycle", cs "heating element", cs "water inlet", cs "float switch"]

/-- `PART_KEYWORDS` from `validators.py`. -/
def partKwList : List (List Char) :=
  [cs "compressor", cs "condenser", cs "evaporator", cs "fan", cs "motor", cs "filter",
   cs "water filter", cs "ice maker", cs "thermostat", cs "temperature control",
   cs "defrost", cs "heater", cs "drawer", cs "seal", cs "gasket", cs "shelf",
   cs "bin", cs "door", cs "hinge", cs "handle", cs "light", cs "switch",
   cs "water line", cs "water valve", cs "dispenser", cs "control board",
   cs "circuit board", cs "pump", cs "spray arm", cs "rack", cs "basket",
   cs "door latch", cs "soap dispenser", cs "detergent dispenser",
   cs "heating element", cs "water inlet valve", cs "drain hose",
   cs "float switch", cs "timer", cs "control panel", cs "wash arm",
   cs "rinse aid dispenser"]

/-- `APPLIANCE_BRANDS` from `validators.py`. -/
def brandList : List (List Char) :=
  [cs "whirlpool", cs "maytag", cs "kitchenaid", cs "ge", cs "samsung", cs "lg",
   cs "bosch", cs "frigidaire", cs "electrolux", cs "kenmore", cs "amana",
   cs "thermador", cs "miele", cs "subzero", cs "wolf", cs "viking", cs "haier",
   cs "hotpoint", cs "fisher & paykel"]

/-- `OUT_OF_SCOPE_TERMS` from `validators.py`. -/
def outTermList : List (List Char) :=
  [cs "stove", cs "oven", cs "microwave", cs "washer", cs "dryer",
   cs "washing machine", cs "clothes", cs "laundry", cs "air conditioner",
   cs "ac unit", cs "hvac", cs "vacuum", cs "blender", cs "toaster",
   cs "coffee maker", cs "kettle", cs "mixer", cs "grill", cs "range",
   cs "bbq", cs "tv", cs "television", cs "computer", cs "laptop", cs "printer"]

/-- Whole-word occurrence test used for out-of-scope terms:
`f" {term} " in f" {text} " or text.startswith(f"{term} ") or text.endswith(f" {term}")`. -/
def wholeWord (tl term : List Char) : Bool :=
  containsSub (' ' :: tl ++ [' ']) (' ' :: term ++ [' ']) ||
    startsWithL tl (term ++ [' ']) || endsWithL tl (' ' :: term)

/-- `has_out_of_scope` flag of `is_in_scope`. -/
def hasOutTerm (tl : List Char) : Bool := outTermList.any fun term => wholeWord tl term

/-- `has_in_scope_appliance` flag of `is_in_scope`. -/
def hasApplianceKw (tl : List Char) : Bool := applianceKwList.any fun k => containsSub tl k

/-- Some appliance brand occurs as a substring. -/
def brandAny (tl : List Char) : Bool := brandList.any fun b => containsSub tl b

/-- Some part keyword occurs as a substring. -/
def partKwAny (tl : List Char) : Bool := partKwList.any fun p => containsSub tl p

/-- The brand-with-context rule of `is_in_scope`: a brand occurs and the query
has more than four words or also mentions a part keyword. -/
def brandCtxRule (tl : List Char) : Bool :=
  brandList.any fun b =>
    containsSub tl b && (decide (4 < (words tl).length) || partKwAny tl)

/-- Shallow embedding of `is_in_scope` (`validators.py`, lines 130-214). -/
def isInScope (t : List Char) : Bool :=
  if lower t = cs "is this part compatible and how do i install it?" then true
  else if lower t = cs "i need a part" then false
  else if modelRuleFires t then true
  else if containsSub (lower t) (cs "heating element") && containsSub (lower t) (cs "oven") then false
  else if containsSub (lower t) (cs "appliance") && brandAny (lower t) then true
  else if hasOutTerm (lower t) && !hasApplianceKw (lower t) then false
  else if hasApplianceKw (lower t) then true
  else if partKwAny (lower t) then true
  else if brandCtxRule (lower t) then true
  else if containsSub (lower t) (cs "part") then
    if (words (lower t)).length ≤ 4 then false else true
  else false

/-- Intent keyword `doesn't work`. -/
def kwDoesntWork : List Char := cs "doesn" ++ apS ++ cs "t work"

/-- Intent keyword `isn't`. -/
def kwIsnt : List Char := cs "isn" ++ apS ++ cs "t"

/-- Intent keyword `won't`. -/
def kwWont : List Char := cs "won" ++ apS ++ cs "t"

/-- Intent keyword `doesn't`. -/
def kwDoesnt : List Char := cs "doesn" ++ apS ++ cs "t"

/-- Phrase `isn't working`. -/
def phIsntWorking : List Char := cs "isn" ++ apS ++ cs "t working"

/-- Phrase `won't start`. -/
def phWontStart : List Char := cs "won" ++ apS ++ cs "t start"

/-- `INTENT_KEYWORDS['lookup']`. -/
def lookupKws : List (List Char) :=
  [cs "find", cs "search", cs "look up", cs "lookup", cs "need", cs "where",
   cs "part", cs "parts", cs "replacement", cs "get", cs "info", cs "information",
   cs "details", cs "specs", cs "specifications", cs "price"]

/-- `INTENT_KEYWORDS['compatibility']`. -/
def compatKws : List (List Char) :=
  [cs "compatible", cs "compatibility", cs "fit", cs "fits", cs "work with",
   cs "works with", cs "match", cs "matches", cs "right", cs "correct",
   cs "appropriate", cs "suitable"]

/-- `INTENT_KEYWORDS['install']`. -/
def installKws : List (List Char) :=
  [cs "install", cs "replace", cs "installation", cs "installing", cs "replacing",
   cs "put in", cs "setup", cs "set up", cs "mount", cs "assemble",
   cs "instructions", cs "manual", cs "steps", cs "guide", cs "tutorial",
   cs "how do i"]

/-- `INTENT_KEYWORDS['diagnose']`. -/
def diagnoseKws : List (List Char) :=
  [cs "diagnose", cs "troubleshoot", cs "fix", cs "problem", cs "issue",
   cs "broken", kwDoesntWork, cs "not working", cs "help", cs "error",
   cs "fault", cs "fails", cs "stopped", kwIsnt, kwWont, kwDoesnt, cs "why",
   cs "how come", cs "troubleshooting", cs "diagnostic", cs "repair",
   cs "draining", cs "leaking"]

/-- `INTENT_KEYWORDS['order']`. -/
def orderKws : List (List Char) :=
  [cs "order", cs "buy", cs "purchase", cs "purchasing", cs "checkout",
   cs "shopping cart", cs "add to cart", cs "cart", cs "ship", cs "shipping",
   cs "delivery", cs "place order", cs "ordering", cs "shop", cs "get"]

/-- `INTENT_KEYWORDS['status']`. -/
def statusKws : List (List Char) :=
  [cs "status", cs "where is", cs "track", cs "tracking", cs "shipped",
   cs "delivery", cs "arrived", cs "package", cs "order status", cs "when will",
   cs "my order"]

/-- Strong keywords earning the extra +2 for `order`. -/
def orderStrong : List (List Char) := [cs "order", cs "buy", cs "purchase", cs "cart"]

/-- Strong keywords for `status`. -/
def statusStrong : List (List Char) := [cs "status", cs "track", cs "where is"]

/-- Strong keywords for `diagnose`. -/
def diagnoseStrong : List (List Char) :=
  [cs "fix", cs "troubleshoot", cs "not working", cs "problem"]

/-- Strong keywords for `install`. -/
def installStrong : List (List Char) := [cs "install", cs "replace", cs "instructions"]

/-- Strong keywords for `compatibility`. -/
def compatStrong : List (List Char) := [cs "compatible", cs "fit", cs "work with"]

/-- `INTENT_PHRASES` in declaration (iteration) order. -/
def intentPhraseTable : List (List Char × List (List Char)) :=
  [(cs "lookup", [cs "need to find", cs "looking for", cs "searching for"]),
   (cs "order", [cs "add to", cs "place an order", cs "buy a", cs "buy the",
     cs "purchase a", cs "purchase the", cs "add to my cart", cs "shipping options"]),
   (cs "install", [cs "how do i install", cs "how to install",
     cs "installation instructions", cs "steps to replace", cs "how to replace"]),
   (cs "compatibility", [cs "will this fit", cs "does this work with",
     cs "will this work with", cs "is this compatible with"]),
   (cs "diagnose", [phIsntWorking, cs "stopped working", cs "not working",
     cs "broken", phWontStart, cs "having problems with"])]

/-- The `not working` phrase family whose match is skipped when the text also
contains a purchase verb. -/
def notWorkingFamily : List (List Char) :=
  [phIsntWorking, cs "not working", cs "stopped working"]

/-- Scan one intent's phrase list; a phrase of the `not working` family is
skipped when the text also mentions `buy` or `purchase`. -/
def phraseScanOne (tl intent : List Char) : List (List Char) → Option (List Char)
  | [] => none
  | ph :: rest =>
    if containsSub tl ph then
      if notWorkingFamily.any (fun f => decide (f = ph)) &&
          (containsSub tl (cs "buy") || containsSub tl (cs "purchase")) then
        phraseScanOne tl intent rest
      else some intent
    else phraseScanOne tl intent rest

/-- Scan the whole phrase table in declaration order, first hit wins. -/
def phraseScan (tl : List Char) : List (List Char × List (List Char)) → Option (List Char)
  | [] => none
  | (i, phs) :: rest =>
    match phraseScanOne tl i phs with
    | some r => some r
    | none => phraseScan tl rest

/-- Score one intent: +1 per keyword occurring in the text, +2 more when the
keyword belongs to that intent's strong subset. -/
def scoreKw (tl : List Char) (strong kws : List (List Char)) : Nat :=
  kws.foldl
    (fun acc kw =>
      if containsSub tl kw then
        acc + 1 + (if strong.any (fun s => decide (s = kw)) then 2 else 0)
      else acc)
    0

/-- The per-intent scores in `intent_scores` iteration order, after the
`this part` compatibility bonus and the water-filter installation bonus. -/
def intentScores (tl : List Char) : List (List Char × Nat) :=
  let sLookup := scoreKw tl [] lookupKws
  let sCompat0 := scoreKw tl compatStrong compatKws
  let sInstall0 := scoreKw tl installStrong installKws
  let sDiagnose := scoreKw tl diagnoseStrong diagnoseKws
  let sOrder := scoreKw tl orderStrong orderKws
  let sStatus := scoreKw tl statusStrong statusKws
  let sCompat :=
    if containsSub tl (cs "this part") && decide (0 < sCompat0) then sCompat0 + 2
    else sCompat0
  let sInstall :=
    if containsSub tl (cs "water filter") && containsSub tl (cs "how") then sInstall0 + 3
    else sInstall0
  [(cs "lookup", sLookup), (cs "compatibility", sCompat), (cs "install", sInstall),
   (cs "diagnose", sDiagnose), (cs "order", sOrder), (cs "status", sStatus)]

/-- The max-score loop: strict improvement, first maximum wins. -/
def pickMax : List Char × Nat → List (List Char × Nat) → List Char × Nat
  | cur, [] => cur
  | cur, (i, s) :: rest =>
    if cur.2 < s then pickMax (i, s) rest else pickMax cur rest

/-- The weighted keyword-scoring fallback of `extract_intent`. -/
def scoringIntent (tl : List Char) : List Char :=
  if (pickMax (cs "lookup", 0) (intentScores tl)).2 = 0 then cs "lookup"
  else (pickMax (cs "lookup", 0) (intentScores tl)).1

/-- The override rules of `extract_intent` that follow the order/status block
(lines 271-287: the troubleshooting, installation and this-part rules),
falling back to keyword scoring. -/
def lateOverrides (tl : List Char) : List Char :=
  if (containsSub tl (cs "not working") || containsSub tl phIsntWorking ||
      containsSub tl (cs "stopped working") || containsSub tl (cs "problems")) &&
      !((containsSub tl (cs "need") && containsSub tl (cs "buy")) ||
        (containsSub tl (cs "need") && containsSub tl (cs "purchase"))) then
    cs "diagnose"
  else if containsSub tl (cs "how to fix") || containsSub tl (cs "troubleshoot") then
    cs "diagnose"
  else if containsSub tl (cs "how do i") &&
      (containsSub tl (cs "install") || containsSub tl (cs "replace") ||
       containsSub tl (cs "fix")) then cs "install"
  else if containsSub tl (cs "how to") &&
      (containsSub tl (cs "install") || containsSub tl (cs "replace") ||
       containsSub tl (cs "fix")) then cs "install"
  else if containsSub tl (cs "this part") &&
      (containsSub tl (cs "compatible") || containsSub tl (cs "fit") ||
       containsSub tl (cs "fits") || containsSub tl (cs "work") ||
       containsSub tl (cs "works")) then cs "compatibility"
  else scoringIntent tl

/-- The explicit override rules of `extract_intent` (lines 254-287) followed by
the keyword-scoring fallback; applied after the phrase table misses. The
order/status block falls through to the later overrides when neither of its
inner conditions holds. -/
def afterPhrases (tl : List Char) : List Char :=
  if containsSub tl (cs "add") && containsSub tl (cs "cart") then cs "order"
  else if (containsSub tl (cs "purchase") || containsSub tl (cs "buy")) &&
      !(containsSub tl (cs "how") || containsSub tl (cs "where") ||
        containsSub tl (cs "this")) then cs "order"
  else if containsSub tl (cs "shipping") && containsSub tl (cs "options") then cs "order"
  else if (containsSub tl (cs "order") && containsSub tl (cs "my")) ||
      containsSub tl (cs "track") || containsSub tl (cs "shipping") ||
      containsSub tl (cs "delivery") then
    if containsSub tl (cs "where is") || containsSub tl (cs "track") ||
        containsSub tl (cs "when will") || containsSub tl (cs "status") then
      cs "status"
    else if containsSub tl (cs "buy") || containsSub tl (cs "purchase") ||
        containsSub tl (cs "order") || containsSub tl (cs "cart") then
      cs "order"
    else lateOverrides tl
  else lateOverrides tl

/-- The hard-coded special-case query about the non-working dishwasher pump. -/
def pumpSpecial : List Char :=
  cs "my dishwasher isn" ++ apS ++ cs "t working, i need to buy a new pump"

/-- Shallow embedding of `extract_intent` (`validators.py`, lines 216-332). -/
def extractIntent (t : List Char) : List Char :=
  if lower t = cs "is this part compatible and how do i install it?" then cs "install"
  else if !isInScope t then cs "out_of_scope"
  else if lower t = cs "i need to find and install a water filter" then cs "lookup"
  else if lower t = pumpSpecial then cs "diagnose"
  else
    match phraseScan (lower t) intentPhraseTable with
    | some i => i
    | none => afterPhrases (lower t)

/-- Alternation `(pcs|pieces|units|quantity)` tried left to right at the head. -/
def unitAlt (s : List Char) : Bool :=
  [cs "pcs", cs "pieces", cs "units", cs "quantity"].any fun u => lPre u s

/-- After the digits of the quantity pattern: `\s+` (greedy, backtracking)
followed by the unit alternation. -/
def qtyWsTry (s1 : List Char) : List Nat → Bool
  | [] => false
  | n :: rest =>
    match takeCls isWs n s1 with
    | some s2 => if unitAlt s2 then true else qtyWsTry s1 rest
    | none => qtyWsTry s1 rest

/-- Matcher for `(\d+)\s+(pcs|pieces|units|quantity)` at the head, returning
the first capture group (the digits). -/
def qtyTry (s : List Char) : List Nat → Option (List Char)
  | [] => none
  | n :: rest =>
    match takeCls isDig n s with
    | some s1 =>
      if qtyWsTry s1 (descRange (runLen isWs s1) 1) then some (s.take n)
      else qtyTry s rest
    | none => qtyTry s rest

/-- One-position attempt of the quantity pattern. -/
def qtyAt (s : List Char) : Option (List Char) :=
  qtyTry s (descRange (runLen isDig s) 1)

/-- `re.search` of the quantity pattern, returning group 1. -/
def qtySearch : List Char → Option (List Char)
  | [] => none
  | c :: t =>
    match qtyAt (c :: t) with
    | some d => some d
    | none => qtySearch t

/-- `\d{6,10}` at the head of the order-number pattern: greedy, capped at 10;
returns the captured digits. -/
def orderDigits (s : List Char) : Option (List Char) :=
  if 6 ≤ runLen isDig s then some (s.take (min (runLen isDig s) 10)) else none

/-- Optional `#` before the digits of the order-number pattern (greedy `#?`
with its failing no-hash backtrack included). -/
def orderHashDigits (s : List Char) : Option (List Char) :=
  match s with
  | '#' :: t =>
    (match orderDigits t with
     | some d => some d
     | none => orderDigits s)
  | _ => orderDigits s

/-- Optional `(?:number\s+)?` segment, tried greedily first. -/
def orderNumberSeg (s : List Char) : Option (List Char) :=
  let without := orderHashDigits s
  if lPre (cs "number") s then
    let s1 := s.drop 6
    match qtyNsTry s1 (descRange (runLen isWs s1) 1) with
    | some d => some d
    | none => without
  else without
where
  /-- `\s+` after `number`, greedy with backtracking. -/
  qtyNsTry (s1 : List Char) : List Nat → Option (List Char)
    | [] => none
    | n :: rest =>
      match takeCls isWs n s1 with
      | some s2 =>
        (match orderHashDigits s2 with
         | some d => some d
         | none => qtyNsTry s1 rest)
      | none => qtyNsTry s1 rest

/-- `\s+` after the literal `order`, greedy with backtracking. -/
def orderWsTry (s1 : List Char) : List Nat → Option (List Char)
  | [] => none
  | n :: rest =>
    match takeCls isWs n s1 with
    | some s2 =>
      (match orderNumberSeg s2 with
       | some d => some d
       | none => orderWsTry s1 rest)
    | none => orderWsTry s1 rest

/-- Matcher for `order\s+(?:number\s+)?#?(\d{6,10})` at the head,
returning the captured order number. -/
def orderNumAt (s : List Char) : Option (List Char) :=
  if lPre (cs "order") s then
    let s1 := s.drop 5
    orderWsTry s1 (descRange (runLen isWs s1) 1)
  else none

/-- `re.search` of the order-number pattern (applied to the lower-cased text). -/
def orderSearch : List Char → Option (List Char)
  | [] => none
  | c :: t =>
    match orderNumAt (c :: t) with
    | some d => some d
    | none => orderSearch t

/-- Character class `[\w\.-]` of the email pattern. -/
def emailCls (c : Char) : Bool := isWordC c || c = '.' || c = '-'

/-- Tail `\.\w+` of the email pattern after the domain-class run. -/
def emailTail (s : List Char) : Option Nat :=
  match s with
  | '.' :: t => if 1 ≤ runLen isWordC t then some (1 + runLen isWordC t) else none
  | _ => none

/-- Second class run of the email pattern (greedy, backtracking into the tail). -/
def emailDom (s : List Char) : List Nat → Option Nat
  | [] => none
  | n :: rest =>
    match takeCls emailCls n s with
    | some s2 =>
      (match emailTail s2 with
       | some m => some (n + m)
       | none => emailDom s rest)
    | none => emailDom s rest

/-- First class run of the email pattern followed by `@` and the domain part. -/
def emailLocal (s : List Char) : List Nat → Option Nat
  | [] => none
  | n :: rest =>
    match takeCls emailCls n s with
    | some s1 =>
      (match s1 with
       | '@' :: s2 =>
         (match emailDom s2 (descRange (runLen emailCls s2) 1) with
          | some m => some (n + 1 + m)
          | none => emailLocal s rest)
       | _ => emailLocal s rest)
    | none => emailLocal s rest

/-- Matcher for `[\w\.-]+@[\w\.-]+\.\w+` at the head, returning the match length. -/
def emailAt (s : List Char) : Option Nat :=
  emailLocal s (descRange (runLen emailCls s) 1)

/-- `re.search` of the email pattern on the raw text. -/
def emailSearch (s : List Char) : Option (List Char) := searchFrom emailAt s

/-- The fixed part-name phrase list scanned by the lookup/install extractors. -/
def partNameList : List (List Char) :=
  [cs "water filter", cs "ice maker", cs "control board", cs "heating element",
   cs "drain pump", cs "door gasket"]

/-- First part-name phrase occurring in the text, if any. -/
def firstPartName (il : List Char) : Option (List Char) :=
  partNameList.find? fun p => containsSub il p

/-- The ordered problem-phrase list of the diagnose extractor. -/
def problemList : List (List Char) :=
  [cs "not cooling", cs "no water", cs "leaking", cs "not draining",
   cs "making noise", cs "not working", cs "ice maker", cs "no ice",
   cs "water dispenser", cs "not running", cs "door", cs "light", cs "strange taste"]

/-- A per-turn `ParameterSet`: the slot map produced by `_extract_parameters`. -/
structure Params where
  partNumber : Option (List Char)
  partName : Option (List Char)
  modelNumber : Option (List Char)
  applianceType : Option (List Char)
  problem : Option (List Char)
  quantity : Option (List Char)
  action : Option (List Char)
  orderNumber : Option (List Char)
  email : Option (List Char)
deriving DecidableEq

/-- The empty parameter set. -/
def emptyParams : Params := ⟨none, none, none, none, none, none, none, none, none⟩

/-- Appliance-type detection shared by the install and diagnose extractors. -/
def applianceOf (il : List Char) : Option (List Char) :=
  if containsSub il (cs "refrigerator") || containsSub il (cs "fridge") then
    some (cs "refrigerator")
  else if containsSub il (cs "dishwasher") || containsSub il (cs "dish washer") then
    some (cs "dishwasher")
  else none

/-- Shallow embedding of `_extract_parameters` (`part_agent.py`, lines 372-519). -/
def extractParams (intent input : List Char) : Params :=
  let il := lower input
  if intent = cs "lookup" then
    match partSearch input with
    | some pn => { emptyParams with partNumber := some pn }
    | none =>
      if containsSub il (cs "water filter") then
        { emptyParams with partNumber := some (cs "W10295370A"),
                           partName := some (cs "water filter") }
      else if containsSub il (cs "ice maker") then
        { emptyParams with partNumber := some (cs "W10190961"),
                           partName := some (cs "ice maker") }
      else if containsSub il (cs "control board") then
        { emptyParams with partNumber := some (cs "WPW10503278"),
                           partName := some (cs "control board") }
      else if containsSub il (cs "heating element") || containsSub il (cs "heater") then
        { emptyParams with partNumber := some (cs "WPW10518394"),
                           partName := some (cs "heating element") }
      else if containsSub il (cs "drain pump") then
        { emptyParams with partNumber := some (cs "W10348269"),
                           partName := some (cs "drain pump") }
      else if containsSub il (cs "door gasket") || containsSub il (cs "seal") then
        { emptyParams with partNumber := some (cs "WPW10438677"),
                           partName := some (cs "door gasket") }
      else
        { emptyParams with partName := firstPartName il }
  else if intent = cs "compatibility" then
    let p1 : Params :=
      match partSearch input with
      | some pn => { emptyParams with partNumber := some pn }
      | none => emptyParams
    let p2 : Params :=
      match modelSearch input with
      | some mn =>
        if mn ≠ (p1.partNumber.getD []) then { p1 with modelNumber := some mn } else p1
      | none => p1
    if p2.modelNumber.isSome && decide (p2.partNumber = none) &&
        containsSub il (cs "water filter") then
      { p2 with partNumber := some (cs "W10295370A"), partName := some (cs "water filter") }
    else p2
  else if intent = cs "install" then
    { emptyParams with applianceType := applianceOf il, partName := firstPartName il }
  else if intent = cs "diagnose" then
    let base := { emptyParams with applianceType := applianceOf il,
                                   problem := problemList.find? fun p => containsSub il p }
    if containsSub il (cs "water") &&
        (containsSub il (cs "taste") || containsSub il (cs "strange") ||
         containsSub il (cs "bad")) then
      { base with problem := some (cs "water filter"), partName := some (cs "water filter") }
    else base
  else if intent = cs "cart" then
    let act :=
      if containsSub il (cs "add") || containsSub il (cs "put") then cs "add"
      else if containsSub il (cs "remove") || containsSub il (cs "delete") then cs "remove"
      else if containsSub il (cs "view") || containsSub il (cs "show") ||
          containsSub il (cs "what") then cs "view"
      else if containsSub il (cs "clear") || containsSub il (cs "empty") then cs "clear"
      else cs "view"
    { emptyParams with partNumber := partSearch input,
                       quantity := some ((qtySearch il).getD (cs "1")),
                       action := some act }
  else if intent = cs "order" then
    { emptyParams with orderNumber := orderSearch il, email := emailSearch input }
  else emptyParams

/-- The agent's mutable `conversation_context` record. -/
structure Ctx where
  lastIntent : Option (List Char)
  lastPartNumber : Option (List Char)
  lastPartName : Option (List Char)
  lastModelNumber : Option (List Char)
  lastApplianceType : Option (List Char)
deriving DecidableEq

/-- The context of a freshly constructed agent: every field empty. -/
def freshCtx : Ctx := ⟨none, none, none, none, none⟩

/-- The pronoun token list of `_is_context_dependent_query`. -/
def pronounList : List (List Char) :=
  [cs "it", cs "this", cs "that", cs "them", cs "these", cs "those"]

/-- The follow-up phrase prefixes of `_is_context_dependent_query`. -/
def followUpPatterns : List (List Char) :=
  [cs "how do i", cs "how to", cs "install", cs "compatible", cs "will it work",
   cs "is it compatible", cs "where does it go", cs "how much", cs "what about",
   cs "add to cart", cs "remove from cart", cs "check order"]

/-- Shallow embedding of `_is_context_dependent_query` (`part_agent.py`,
lines 552-610). -/
def isContextDependent (ctx : Ctx) (q : List Char) : Bool :=
  if (words (strip (lower q))).length ≤ 5 then
    pronounList.any (fun p => (words (strip (lower q))).any fun w => decide (w = p)) ||
      followUpPatterns.any fun pat => startsWithL (strip (lower q)) pat
  else if containsSub (strip (lower q)) (cs "cart") ||
      containsSub (strip (lower q)) (cs "add") ||
      containsSub (strip (lower q)) (cs "basket") then
    ctx.lastPartNumber.isSome
  else if containsSub (strip (lower q)) (cs "order") ||
      containsSub (strip (lower q)) (cs "status") ||
      containsSub (strip (lower q)) (cs "track") then
    true
  else false

/-- The second rule block of `_enhance_query_with_context` (`part_agent.py`,
lines 649-673): the lookup/compatibility follow-up rule with its attached
cart and order `elif` branches (skipped whenever `last_intent` is `lookup`
or `compatibility`), over the already lower-cased stripped query `ql`. -/
def enhanceLate (ctx : Ctx) (li ql : List Char) : Option (List Char × List Char) :=
  if li = cs "lookup" ∨ li = cs "compatibility" then
    if containsSub ql (cs "install") || containsSub ql (cs "how") then
      some (cs "install",
        cs "How do I install a " ++ (ctx.lastPartName.getD (cs "part")) ++
          cs " in my " ++ (ctx.lastApplianceType.getD (cs "refrigerator")) ++ cs "?")
    else none
  else if containsSub ql (cs "cart") || containsSub ql (cs "add") ||
      containsSub ql (cs "basket") then
    match ctx.lastPartNumber with
    | some pn =>
      if containsSub ql (cs "add") then
        some (cs "cart", cs "Add part " ++ pn ++ cs " to my cart")
      else some (cs "cart", cs "View my cart")
    | none => none
  else if containsSub ql (cs "order") || containsSub ql (cs "status") ||
      containsSub ql (cs "track") then
    some (cs "order", cs "Check my order status")
  else none

/-- Shallow embedding of `_enhance_query_with_context` (`part_agent.py`,
lines 612-673), continued: the first install/compatibility/lookup rule chain;
on a miss (including an outer hit whose required context slot is unset) it
falls through to `enhanceLate`. -/
def enhanceWithContext (ctx : Ctx) (q : List Char) : Option (List Char × List Char) :=
  match ctx.lastIntent with
  | none => none
  | some li =>
    if (containsSub (strip (lower q)) (cs "how") &&
        containsSub (strip (lower q)) (cs "install")) ||
        containsSub (strip (lower q)) (cs "installation") then
      match ctx.lastPartName with
      | some pn =>
        some (cs "install",
          cs "How do I install a " ++ pn ++ cs " in my " ++
            (ctx.lastApplianceType.getD (cs "refrigerator")) ++ cs "?")
      | none => enhanceLate ctx li (strip (lower q))
    else if containsSub (strip (lower q)) (cs "compatible") ||
        containsSub (strip (lower q)) (cs "work with") then
      match ctx.lastPartNumber, ctx.lastModelNumber with
      | some pn, some mn =>
        some (cs "compatibility",
          cs "Is part " ++ pn ++ cs " compatible with " ++ mn ++ cs "?")
      | _, _ => enhanceLate ctx li (strip (lower q))
    else if containsSub (strip (lower q)) (cs "where") ||
        containsSub (strip (lower q)) (cs "find") ||
        containsSub (strip (lower q)) (cs "get") then
      match ctx.lastPartName with
      | some pn =>
        some (cs "lookup",
          cs "I need a " ++ pn ++ cs " for my " ++
            (ctx.lastApplianceType.getD (cs "refrigerator")))
      | none => enhanceLate ctx li (strip (lower q))
    else enhanceLate ctx li (strip (lower q))

/-- A turn's externally observable `DispatchResult`. -/
structure Dispatch where
  toolName : List Char
  result : List Char
  followUp : Option (List Char)
deriving DecidableEq

/-- The external collaborators of the agent: one runner per registered tool
(a fallible string-to-string call), the optional LLM intent classifier, and
the JSON parser used by `_generate_follow_up` (an object is an association
list of string fields, `none` meaning `json.loads` raised). -/
structure Tools where
  lookupRun : List Char → Except (List Char) (List Char)
  compatRun : List Char → Except (List Char) (List Char)
  installRun : List Char → Except (List Char) (List Char)
  diagnoseRun : List Char → Except (List Char) (List Char)
  cartRun : List Char → Except (List Char) (List Char)
  orderRun : List Char → Except (List Char) (List Char)
  llm : Option (List Char → Except (List Char) (List Char))
  jparse : List Char → Option (List (List Char × List Char))

/-- Name of `SimpleProductLookupTool`. -/
def nmLookup : List Char := cs "product_lookup_tool"

/-- Name of `SimpleCompatibilityTool`. -/
def nmCompat : List Char := cs "compatibility_tool"

/-- Name of `SimpleInstallationGuideTool`. -/
def nmInstall : List Char := cs "installation_guide_tool"

/-- Name of `SimpleErrorDiagnosisTool`. -/
def nmDiagnose : List Char := cs "error_diagnosis_tool"

/-- Name of `CartTool`. -/
def nmCart : List Char := cs "cart_tool"

/-- Name of `OrderStatusTool`. -/
def nmOrder : List Char := cs "order_status_tool"

/-- The static `intent_tool_map` of `_init_tools`: intent label to
(tool name, tool runner); `status` and `out_of_scope` are unmapped. -/
def toolFor (T : Tools) (i : List Char) :
    Option (List Char × (List Char → Except (List Char) (List Char))) :=
  if i = cs "lookup" then some (nmLookup, T.lookupRun)
  else if i = cs "compatibility" then some (nmCompat, T.compatRun)
  else if i = cs "install" then some (nmInstall, T.installRun)
  else if i = cs "diagnose" then some (nmDiagnose, T.diagnoseRun)
  else if i = cs "cart" then some (nmCart, T.cartRun)
  else if i = cs "order" then some (nmOrder, T.orderRun)
  else none

/-- Shallow embedding of `_generate_follow_up` for the lookup intent
(`part_agent.py`, lines 521-550): parse the result as JSON; on parse failure
a generic suggestion; on an `error` field no suggestion; on a non-empty
`name` field a dynamic suggestion; otherwise none. -/
def genFollowUp (T : Tools) (result : List Char) : Option (List Char) :=
  match T.jparse result with
  | none => some (cs "Would you like to check compatibility or get installation instructions?")
  | some obj =>
    if obj.any (fun kv => decide (kv.1 = cs "error")) then none
    else
      let nm := ((obj.find? fun kv => decide (kv.1 = cs "name")).map Prod.snd).getD []
      if nm = [] then none
      else some (cs "Would you like installation instructions for the " ++ nm ++ cs "?")

/-- Follow-up for a cart dispatch, chosen by the extracted action. -/
def cartFollowUp (act : List Char) : List Char :=
  if act = cs "add" then cs "Would you like to view your cart or continue shopping?"
  else if act = cs "view" then cs "Would you like to checkout or continue shopping?"
  else cs "Is there anything else you" ++ apS ++ cs "d like to do with your cart?"

/-- The `try` body of `_run_tool_for_intent` (`part_agent.py`, lines 232-351):
build the canonical sub-query for the intent, invoke the tool once, and
assemble the `DispatchResult`; a raised tool error propagates. -/
def runToolBody (T : Tools) (intent input : List Char)
    (tool : List Char × (List Char → Except (List Char) (List Char))) :
    Except (List Char) Dispatch :=
  let params := extractParams intent input
  if intent = cs "lookup" then
    (tool.2 (params.partNumber.getD [])).map fun res =>
      ⟨tool.1, res, genFollowUp T res⟩
  else if intent = cs "compatibility" then
    (tool.2 ((params.partNumber.getD []) ++ cs ":" ++ (params.modelNumber.getD []))).map
      fun res =>
        ⟨tool.1, res, some (cs "Would you like to see installation instructions for this part?")⟩
  else if intent = cs "install" then
    let q := (params.partName.getD []) ++
      (match params.applianceType with | some a => cs ":" ++ a | none => [])
    (tool.2 q).map fun res => ⟨tool.1, res, some (cs "Do you need help finding this part?")⟩
  else if intent = cs "diagnose" then
    let q := (params.problem.getD []) ++
      (match params.applianceType with | some a => cs ":" ++ a | none => [])
    (tool.2 q).map fun res =>
      ⟨tool.1, res, some (cs "Would you like me to help you find any of these parts?")⟩
  else if intent = cs "cart" then
    let params2 := extractParams intent input
    let act := params2.action.getD (cs "view")
    let q :=
      if act = cs "add" ∧ params2.partNumber.isSome then
        cs "add:" ++ (params2.partNumber.getD []) ++ cs ":" ++
          (params2.quantity.getD (cs "1"))
      else if act = cs "remove" ∧ params2.partNumber.isSome then
        cs "remove:" ++ (params2.partNumber.getD [])
      else if act = cs "clear" then cs "clear"
      else cs "view"
    (tool.2 q).map fun res => ⟨tool.1, res, some (cartFollowUp act)⟩
  else if intent = cs "order" then
    let params2 := extractParams intent input
    let q :=
      match params2.orderNumber, params2.email with
      | some o, some e => o ++ cs ":" ++ e
      | some o, none => o
      | none, some e => cs "email:" ++ e
      | none, none => cs "status"
    (tool.2 q).map fun res =>
      ⟨tool.1, res, some (cs "Would you like to check another order or continue shopping?")⟩
  else
    (tool.2 input).map fun res => ⟨tool.1, res, none⟩

/-- The `unknown_intent` fallback `DispatchResult`. -/
def unknownDispatch : Dispatch :=
  ⟨cs "unknown_intent", cs "I" ++ apS ++ cs "m not sure how to process that request.", none⟩

/-- The `error` `DispatchResult` assembled by the `except` clause of
`_run_tool_for_intent`. -/
def errorDispatch (e : List Char) : Dispatch :=
  ⟨cs "error", cs "I encountered an error while processing your request: " ++ e,
   some (cs "Could you try rephrasing your question?")⟩

/-- Shallow embedding of `_run_tool_for_intent` (`part_agent.py`, lines
206-359): unmapped intents yield `unknown_intent`; a tool error is caught and
turned into the `error` dispatch; nothing propagates. -/
def runToolForIntent (T : Tools) (intent input : List Char) : Dispatch :=
  match toolFor T intent with
  | none => unknownDispatch
  | some tool =>
    match runToolBody T intent input tool with
    | Except.ok d => d
    | Except.error e => errorDispatch e

/-- Overwrite an optional context field only when the turn extracted it. -/
def upd (new old : Option (List Char)) : Option (List Char) :=
  match new with
  | some v => some v
  | none => old

/-- Shallow embedding of `_update_conversation_context` (`part_agent.py`,
lines 675-698). -/
def updateCtx (ctx : Ctx) (intent q : List Char) : Ctx :=
  let p := extractParams intent q
  { lastIntent := some intent,
    lastPartNumber := upd p.partNumber ctx.lastPartNumber,
    lastPartName := upd p.partName ctx.lastPartName,
    lastModelNumber := upd p.modelNumber ctx.lastModelNumber,
    lastApplianceType := upd p.applianceType ctx.lastApplianceType }

/-- The canned scope-rejection `DispatchResult` of `process_query`. -/
def oosDispatch : Dispatch :=
  ⟨cs "out_of_scope",
   cs "I" ++ apS ++
     cs "m sorry, but I can only help with questions about refrigerator and dishwasher parts.",
   none⟩

/-- The second, apologetic out-of-scope `DispatchResult` of `process_query`. -/
def apologDispatch : Dispatch :=
  ⟨cs "out_of_scope",
   cs "I understand your question is about appliance parts, but I" ++ apS ++
     cs "m not sure how to help specifically. Could you please rephrase your question about refrigerator or dishwasher parts?",
   some (cs "Try asking about finding a specific part, checking compatibility, installation instructions, or diagnosing a problem.")⟩

/-- The diagnose-override problem indicators of `process_query`
(lines 169-174; the source lists `doesn't` twice). -/
def diagnoseIndicators : List (List Char) :=
  [cs "not working", cs "not cooling", cs "leaking", cs "strange", cs "noise",
   cs "broken", kwDoesntWork, phIsntWorking, cs "problem", cs "issue",
   kwDoesnt, kwDoesnt]

/-- The intent computed by steps 2-3 of `process_query`: rule-based
classification followed by the diagnose override. -/
def classifyAfterOverride (input : List Char) : List Char :=
  if diagnoseIndicators.any (fun d => containsSub (lower input) d) then cs "diagnose"
  else extractIntent input

/-- Step 4 of `process_query`: when the rule-based intent is `out_of_scope`
and an LLM classifier is configured, invoke it once; on success adopt its
label, on failure (a raised exception, caught and logged) keep the intent. -/
def llmAdjust (T : Tools) (intent1 input : List Char) : List Char :=
  if intent1 = cs "out_of_scope" ∧ T.llm.isSome then
    match T.llm with
    | some f =>
      match f input with
      | Except.ok lbl => lbl
      | Except.error _ => intent1
    | none => intent1
  else intent1

/-- The normal (non-context-resolved) flow of `process_query`: scope check,
classification with diagnose override and LLM fallback, dispatch, and the
conversation-context update. -/
def processNormal (T : Tools) (ctx : Ctx) (input : List Char) :
    Except (List Char) (Dispatch × Ctx) :=
  if !isInScope input then Except.ok (oosDispatch, ctx)
  else if llmAdjust T (classifyAfterOverride input) input = cs "out_of_scope" then
    Except.ok (apologDispatch, ctx)
  else
    Except.ok
      (runToolForIntent T (llmAdjust T (classifyAfterOverride input) input) input,
       updateCtx ctx (llmAdjust T (classifyAfterOverride input) input) input)

/-- Shallow embedding of `process_query` (`part_agent.py`, lines 135-204).
The returned pair is the `DispatchResult` together with the agent context
after the call; a top-level `Except.error` would model an exception escaping
`process_query` (no branch produces one). -/
def processQuery (T : Tools) (ctx : Ctx) (input : List Char) :
    Except (List Char) (Dispatch × Ctx) :=
  if isContextDependent ctx input then
    match enhanceWithContext ctx input with
    | some (i, eq) => Except.ok (runToolForIntent T i eq, ctx)
    | none => processNormal T ctx input
  else processNormal T ctx input

/-- A trivial tool runner (always succeeds with the empty string), used to
instantiate the external collaborators in concrete counterexamples. -/
def trivRun : List Char → Except (List Char) (List Char) := fun _ => Except.ok []

/-- Concrete `Tools`: trivial runners, no LLM configured, JSON never parses. -/
def trivTools : Tools :=
  ⟨trivRun, trivRun, trivRun, trivRun, trivRun, trivRun, none, fun _ => none⟩

deriving instance DecidableEq for Except

/-- The six routable intent labels the rule-based classifier can produce. -/
def sixIntents : List (List Char) :=
  [cs "lookup", cs "compatibility", cs "install", cs "diagnose", cs "order", cs "status"]

/-- The max-score loop returns either its accumulator label or a label from the list. -/
theorem pickMax_fst : ∀ (l : List (List Char × Nat)) (cur : List Char × Nat),
    (pickMax cur l).1 = cur.1 ∨ (pickMax cur l).1 ∈ l.map Prod.fst
  | [], _ => Or.inl rfl
  | (i, s) :: tl, cur => by
    simp only [pickMax, List.map_cons]
    split
    · rcases pickMax_fst tl (i, s) with h | h
      · exact Or.inr (by simp [h])
      · exact Or.inr (List.mem_cons_of_mem _ h)
    · rcases pickMax_fst tl cur with h | h
      · exact Or.inl h
      · exact Or.inr (List.mem_cons_of_mem _ h)

/-- The scoring fallback only produces one of the six intent labels. -/
theorem scoringIntent_mem (tl : List Char) : scoringIntent tl ∈ sixIntents := by
  unfold scoringIntent
  split
  · decide
  · rcases pickMax_fst (intentScores tl) (cs "lookup", 0) with h | h
    · rw [h]; decide
    · have hmap : (intentScores tl).map Prod.fst = sixIntents := rfl
      rw [hmap] at h
      exact h

/-- The late override block only produces one of the six intent labels. -/
theorem lateOverrides_mem (tl : List Char) : lateOverrides tl ∈ sixIntents := by
  unfold lateOverrides
  split
  · decide
  split
  · decide
  split
  · decide
  split
  · decide
  split
  · decide
  exact scoringIntent_mem tl

/-- The whole override-plus-scoring stage only produces one of the six intent labels. -/
theorem afterPhrases_mem (tl : List Char) : afterPhrases tl ∈ sixIntents := by
  unfold afterPhrases
  split
  · decide
  split
  · decide
  split
  · decide
  split
  · split
    · decide
    split
    · decide
    exact lateOverrides_mem tl
  · exact lateOverrides_mem tl

/-- A hit in one intent's phrase list yields exactly that intent. -/
theorem phraseScanOne_eq : ∀ (tl i : List Char) (phs : List (List Char)) (r : List Char),
    phraseScanOne tl i phs = some r → r = i
  | _, _, [], _ => fun h => nomatch h
  | tl, i, ph :: rest, r => by
    intro h
    simp only [phraseScanOne] at h
    split at h
    · split at h
      · exact phraseScanOne_eq tl i rest r h
      · exact (Option.some.inj h).symm
    · exact phraseScanOne_eq tl i rest r h

/-- A phrase-table hit yields one of the table's intent labels. -/
theorem phraseScan_mem : ∀ (tl : List Char) (tbl : List (List Char × List (List Char)))
    (r : List Char), phraseScan tl tbl = some r → r ∈ tbl.map Prod.fst
  | _, [], _ => fun h => nomatch h
  | tl, (i, phs) :: rest, r => by
    intro h
    simp only [phraseScan] at h
    cases hp : phraseScanOne tl i phs with
    | some r2 =>
      rw [hp] at h
      have hr : r2 = r := Option.some.inj h
      have hi := phraseScanOne_eq tl i phs r2 hp
      subst hr
      rw [hi]
      exact List.mem_cons_self _ _
    | none =>
      rw [hp] at h
      exact List.mem_cons_of_mem _ (phraseScan_mem tl rest r h)

/-- The rule-based classifier returns `out_of_scope` or one of the six labels. -/
theorem extractIntent_cases (t : List Char) :
    extractIntent t = cs "out_of_scope" ∨ extractIntent t ∈ sixIntents := by
  unfold extractIntent
  split
  · right; decide
  split
  · left; rfl
  split
  · right; decide
  split
  · right; decide
  cases hp : phraseScan (lower t) intentPhraseTable with
  | some r =>
    dsimp only
    have h5 := phraseScan_mem (lower t) intentPhraseTable r hp
    have hmap : intentPhraseTable.map Prod.fst =
        [cs "lookup", cs "order", cs "install", cs "compatibility", cs "diagnose"] := rfl
    rw [hmap] at h5
    right
    fin_cases h5 <;> decide
  | none =>
    dsimp only
    right
    exact afterPhrases_mem (lower t)

/-- Once the scope filter has accepted a text, the rule-based classifier
cannot return `out_of_scope` (its only `out_of_scope` exit is the scope check
itself). -/
theorem extractIntent_inScope (t : List Char) (h : isInScope t = true) :
    extractIntent t ≠ cs "out_of_scope" := by
  unfold extractIntent
  split
  · decide
  split
  · rename_i hb
    rw [h] at hb
    exact absurd hb (by decide)
  split
  · decide
  split
  · decide
  cases hp : phraseScan (lower t) intentPhraseTable with
  | some r =>
    dsimp only
    have h5 := phraseScan_mem (lower t) intentPhraseTable r hp
    have hmap : intentPhraseTable.map Prod.fst =
        [cs "lookup", cs "order", cs "install", cs "compatibility", cs "diagnose"] := rfl
    rw [hmap] at h5
    fin_cases h5 <;> decide
  | none =>
    dsimp only
    have h6 := afterPhrases_mem (lower t)
    generalize hA : afterPhrases (lower t) = a at h6 ⊢
    fin_cases h6 <;> decide

/-- The diagnose override preserves the no-`out_of_scope` property. -/
theorem classify_ne_oos (t : List Char) (h : isInScope t = true) :
    classifyAfterOverride t ≠ cs "out_of_scope" := by
  unfold classifyAfterOverride
  split
  · decide
  · exact extractIntent_inScope t h

/-- When the rule-based label is not `out_of_scope`, the LLM fallback is not
consulted and the label passes through unchanged. -/
theorem llmAdjust_skip (T : Tools) (intent1 input : List Char)
    (h : intent1 ≠ cs "out_of_scope") : llmAdjust T intent1 input = intent1 := by
  unfold llmAdjust
  rw [if_neg]
  exact fun hc => h hc.1

/-- A successful tool invocation yields a dispatch carrying the tool's name. -/
theorem map_ok_toolName (nm : List Char) (r : Except (List Char) (List Char))
    (fn : List Char → Dispatch) (hfn : ∀ x, (fn x).toolName = nm) (d : Dispatch)
    (h : r.map fn = Except.ok d) : d.toolName = nm := by
  cases r with
  | ok x =>
    have hx : fn x = d := by
      have : (Except.ok (fn x) : Except (List Char) Dispatch) = Except.ok d := h
      exact Except.ok.inj this
    rw [← hx]
    exact hfn x
  | error e => exact absurd h (by simp [Except.map])

/-- Every dispatch built by the `try` body names the selected tool. -/
theorem runToolBody_name (T : Tools) (intent input : List Char)
    (tool : List Char × (List Char → Except (List Char) (List Char))) (d : Dispatch)
    (h : runToolBody T intent input tool = Except.ok d) : d.toolName = tool.1 := by
  unfold runToolBody at h
  split at h
  · exact map_ok_toolName tool.1 _ _ (fun x => rfl) d h
  split at h
  · exact map_ok_toolName tool.1 _ _ (fun x => rfl) d h
  split at h
  · exact map_ok_toolName tool.1 _ _ (fun x => rfl) d h
  split at h
  · exact map_ok_toolName tool.1 _ _ (fun x => rfl) d h
  split at h
  · exact map_ok_toolName tool.1 _ _ (fun x => rfl) d h
  split at h
  · exact map_ok_toolName tool.1 _ _ (fun x => rfl) d h
  · exact map_ok_toolName tool.1 _ _ (fun x => rfl) d h

/-- The intent-to-tool table only hands out the six registered tool names. -/
theorem toolFor_name (T : Tools) (i : List Char)
    (tool : List Char × (List Char → Except (List Char) (List Char)))
    (h : toolFor T i = some tool) :
    tool.1 = nmLookup ∨ tool.1 = nmCompat ∨ tool.1 = nmInstall ∨
    tool.1 = nmDiagnose ∨ tool.1 = nmCart ∨ tool.1 = nmOrder := by
  unfold toolFor at h
  split at h
  · rw [← Option.some.inj h]; exact Or.inl rfl
  split at h
  · rw [← Option.some.inj h]; exact Or.inr (Or.inl rfl)
  split at h
  · rw [← Option.some.inj h]; exact Or.inr (Or.inr (Or.inl rfl))
  split at h
  · rw [← Option.some.inj h]; exact Or.inr (Or.inr (Or.inr (Or.inl rfl)))
  split at h
  · rw [← Option.some.inj h]; exact Or.inr (Or.inr (Or.inr (Or.inr (Or.inl rfl))))
  split at h
  · rw [← Option.some.inj h]; exact Or.inr (Or.inr (Or.inr (Or.inr (Or.inr rfl))))
  · exact nomatch h

/-- No dispatch produced by `_run_tool_for_intent` carries the tool name
`out_of_scope`: it is always a registered tool name, `unknown_intent` or
`error`. -/
theorem runTool_ne_oosName (T : Tools) (intent input : List Char) :
    (runToolForIntent T intent input).toolName ≠ cs "out_of_scope" := by
  unfold runToolForIntent
  cases htf : toolFor T intent with
  | none =>
    dsimp only
    decide
  | some tool =>
    dsimp only
    cases hb : runToolBody T intent input tool with
    | ok d =>
      rw [runToolBody_name T intent input tool d hb]
      rcases toolFor_name T intent tool htf with h | h | h | h | h | h <;> rw [h] <;> decide
    | error e =>
      show (errorDispatch e).toolName ≠ cs "out_of_scope"
      show cs "error" ≠ cs "out_of_scope"
      decide

/-- No dispatch produced by `_run_tool_for_intent` equals the apologetic
out-of-scope dispatch. -/
theorem runTool_ne_apolog (T : Tools) (intent input : List Char) :
    runToolForIntent T intent input ≠ apologDispatch := by
  intro he
  have hn := runTool_ne_oosName T intent input
  rw [he] at hn
  exact hn rfl

/-- C1: for every input string (including the empty string), every
conversation context, and every behavior of the external collaborators
(tools and LLM classifier may raise arbitrarily), `process_query` terminates
without an escaping exception and returns a well-formed `DispatchResult`
(a `Dispatch` record, which by construction has exactly the fields
`tool_name`, `result` and `follow_up`) — scope rejection, LLM-fallback
failure, handler failure and unroutable intents all end in `Except.ok`. -/
theorem c1_process_query_total_and_wellformed (T : Tools) (ctx : Ctx) (s : List Char) :
    ∃ d c, processQuery T ctx s = Except.ok (d, c) := by
  unfold processQuery processNormal
  split
  · split
    · exact ⟨_, _, rfl⟩
    · split
      · exact ⟨_, _, rfl⟩
      split
      · exact ⟨_, _, rfl⟩
      · exact ⟨_, _, rfl⟩
  · split
    · exact ⟨_, _, rfl⟩
    split
    · exact ⟨_, _, rfl⟩
    · exact ⟨_, _, rfl⟩

/-- C9: the rule-based classifier can never return the label `cart` (its
codomain is `out_of_scope` plus the six labels, of which `cart` is not one),
while the intent-to-tool table does register a cart handler — so that handler
is only reachable through context resolution (the LLM fallback, the only
other entry, is itself unreachable per the C10 theorem). -/
theorem c9_extract_intent_never_cart (T : Tools) (s : List Char) :
    extractIntent s ≠ cs "cart" ∧ toolFor T (cs "cart") = some (nmCart, T.cartRun) := by
  constructor
  · rcases extractIntent_cases s with h | h
    · rw [h]; decide
    · generalize hA : extractIntent s = a at h
      fin_cases h <;> decide
  · rfl

/-- The non-context flow of `process_query` never yields the apologetic
out-of-scope dispatch when the scope filter accepts the text. -/
theorem processNormal_ne_apolog (T : Tools) (ctx : Ctx) (t : List Char)
    (h : isInScope t = true) :
    ∀ d c, processNormal T ctx t = Except.ok (d, c) → d ≠ apologDispatch := by
  intro d c hpq
  unfold processNormal at hpq
  split at hpq
  · rename_i hb
    rw [h] at hb
    exact absurd hb (by decide)
  split at hpq
  · rename_i hoos
    rw [llmAdjust_skip T _ t (classify_ne_oos t h)] at hoos
    exact absurd hoos (classify_ne_oos t h)
  · injection hpq with h1
    injection h1 with h2 h3
    rw [← h2]
    exact runTool_ne_apolog T _ _

/-- C10: when the initial scope guard of `process_query` has passed,
`extract_intent` on the same text cannot return `out_of_scope`; hence the
LLM-fallback branch never fires and the second, apologetic out-of-scope
`DispatchResult` is never returned by `process_query`. -/
theorem c10_no_apologetic_fallback_in_scope (T : Tools) (ctx : Ctx) (t : List Char)
    (h : isInScope t = true) :
    extractIntent t ≠ cs "out_of_scope" ∧
      ∀ d c, processQuery T ctx t = Except.ok (d, c) → d ≠ apologDispatch := by
  refine ⟨extractIntent_inScope t h, ?_⟩
  intro d c hpq
  unfold processQuery at hpq
  split at hpq
  · split at hpq
    · injection hpq with h1
      injection h1 with h2 h3
      rw [← h2]
      exact runTool_ne_apolog T _ _
    · exact processNormal_ne_apolog T ctx t h d c hpq
  · exact processNormal_ne_apolog T ctx t h d c hpq

/-- C10 witness: a concrete in-scope text on which the theorem applies. -/
theorem c10_witness :
    isInScope (cs "my fridge is broken") = true ∧
    (extractIntent (cs "my fridge is broken") ≠ cs "out_of_scope" ∧
      ∀ d c, processQuery trivTools freshCtx (cs "my fridge is broken") = Except.ok (d, c) →
        d ≠ apologDispatch) :=
  ⟨by decide, c10_no_apologetic_fallback_in_scope trivTools freshCtx _ (by decide)⟩

/-- Per-field frame condition: a context field changed across a turn only if
the turn's parameters contain the slot, in which case its value was taken. -/
def frameOk (pOpt oldF newF : Option (List Char)) : Prop :=
  newF ≠ oldF → pOpt ≠ none ∧ newF = pOpt

/-- An untouched field trivially satisfies the frame condition. -/
theorem frameOk_refl (pOpt old : Option (List Char)) : frameOk pOpt old old :=
  fun hne => absurd rfl hne

/-- The per-field overwrite helper satisfies the frame condition. -/
theorem upd_frame (pOpt old : Option (List Char)) : frameOk pOpt old (upd pOpt old) := by
  cases pOpt with
  | none => exact fun hne => absurd rfl hne
  | some v => exact fun _ => ⟨by simp, rfl⟩

/-- The context update overwrites exactly the slots present in the turn's
extracted parameters and leaves all other fields untouched. -/
theorem updateCtx_frame (ctx : Ctx) (i q : List Char) :
    frameOk (extractParams i q).partNumber ctx.lastPartNumber
      (updateCtx ctx i q).lastPartNumber ∧
    frameOk (extractParams i q).partName ctx.lastPartName
      (updateCtx ctx i q).lastPartName ∧
    frameOk (extractParams i q).modelNumber ctx.lastModelNumber
      (updateCtx ctx i q).lastModelNumber ∧
    frameOk (extractParams i q).applianceType ctx.lastApplianceType
      (updateCtx ctx i q).lastApplianceType :=
  ⟨upd_frame _ _, upd_frame _ _, upd_frame _ _, upd_frame _ _⟩

/-- The non-context flow obeys the per-field frame conditions for some intent. -/
theorem processNormal_frame (T : Tools) (ctx : Ctx) (q : List Char) (d : Dispatch)
    (c : Ctx) (h : processNormal T ctx q = Except.ok (d, c)) :
    ∃ i, frameOk (extractParams i q).partNumber ctx.lastPartNumber c.lastPartNumber ∧
      frameOk (extractParams i q).partName ctx.lastPartName c.lastPartName ∧
      frameOk (extractParams i q).modelNumber ctx.lastModelNumber c.lastModelNumber ∧
      frameOk (extractParams i q).applianceType ctx.lastApplianceType
        c.lastApplianceType := by
  unfold processNormal at h
  split at h
  · injection h with h1
    injection h1 with h2 h3
    subst h3
    exact ⟨cs "lookup", frameOk_refl _ _, frameOk_refl _ _, frameOk_refl _ _,
      frameOk_refl _ _⟩
  split at h
  · injection h with h1
    injection h1 with h2 h3
    subst h3
    exact ⟨cs "lookup", frameOk_refl _ _, frameOk_refl _ _, frameOk_refl _ _,
      frameOk_refl _ _⟩
  · injection h with h1
    injection h1 with h2 h3
    subst h3
    exact ⟨_, updateCtx_frame ctx _ q⟩

/-- C8: across any `process_query` call, each of the four entity fields of the
conversation context changes only when the turn's extracted `ParameterSet`
(for the dispatched intent) contains the corresponding slot — in which case
it takes that slot's value — and is otherwise unchanged. -/
theorem c8_context_update_monotonic (T : Tools) (ctx : Ctx) (q : List Char)
    (d : Dispatch) (c : Ctx) (h : processQuery T ctx q = Except.ok (d, c)) :
    ∃ i, frameOk (extractParams i q).partNumber ctx.lastPartNumber c.lastPartNumber ∧
      frameOk (extractParams i q).partName ctx.lastPartName c.lastPartName ∧
      frameOk (extractParams i q).modelNumber ctx.lastModelNumber c.lastModelNumber ∧
      frameOk (extractParams i q).applianceType ctx.lastApplianceType
        c.lastApplianceType := by
  unfold processQuery at h
  split at h
  · split at h
    · injection h with h1
      injection h1 with h2 h3
      subst h3
      exact ⟨cs "lookup", frameOk_refl _ _, frameOk_refl _ _, frameOk_refl _ _,
        frameOk_refl _ _⟩
    · exact processNormal_frame T ctx q d c h
  · exact processNormal_frame T ctx q d c h

/-- C8 witness: the theorem applied to the empty-string turn on a fresh agent. -/
theorem c8_witness :
    processQuery trivTools freshCtx (cs "") = Except.ok (oosDispatch, freshCtx) ∧
    ∃ i, frameOk (extractParams i (cs "")).partNumber freshCtx.lastPartNumber
        freshCtx.lastPartNumber ∧
      frameOk (extractParams i (cs "")).partName freshCtx.lastPartName
        freshCtx.lastPartName ∧
      frameOk (extractParams i (cs "")).modelNumber freshCtx.lastModelNumber
        freshCtx.lastModelNumber ∧
      frameOk (extractParams i (cs "")).applianceType freshCtx.lastApplianceType
        freshCtx.lastApplianceType :=
  ⟨by decide,
   c8_context_update_monotonic trivTools freshCtx (cs "") oosDispatch freshCtx (by decide)⟩

/-- C2 counterexample: `"my whirlpool appliance stove"` contains the
out-of-scope term `stove` as a whole word and no in-scope appliance keyword,
yet `is_in_scope` returns true, because the earlier appliance-with-brand rule
fires first. -/
theorem c2_counterexample :
    hasOutTerm (lower (cs "my whirlpool appliance stove")) = true ∧
    hasApplianceKw (lower (cs "my whirlpool appliance stove")) = false ∧
    isInScope (cs "my whirlpool appliance stove") = true :=
  ⟨by decide, by decide, by decide⟩

/-- C2 amended: for every text containing an out-of-scope term as a whole
word and no in-scope appliance keyword, provided none of the earlier decisive
rules fires (no accepted model-number match and no `appliance`-with-brand
combination), `is_in_scope` returns false. -/
theorem c2_out_of_scope_rejected (t : List Char)
    (h1 : hasOutTerm (lower t) = true)
    (h2 : hasApplianceKw (lower t) = false)
    (h3 : modelRuleFires t = false)
    (h4 : (containsSub (lower t) (cs "appliance") && brandAny (lower t)) = false) :
    isInScope t = false := by
  unfold isInScope
  by_cases hl1 : lower t = cs "is this part compatible and how do i install it?"
  · rw [hl1] at h1
    exact absurd h1 (by decide)
  rw [if_neg hl1]
  by_cases hl2 : lower t = cs "i need a part"
  · rw [if_pos hl2]
  rw [if_neg hl2]
  rw [if_neg (by simp [h3])]
  split
  · rfl
  rw [if_neg (by simp [h4])]
  rw [if_pos (by simp [h1, h2])]

/-- C2 witness: the amended theorem applied to `"my stove is broken"`. -/
theorem c2_witness :
    hasOutTerm (lower (cs "my stove is broken")) = true ∧
    hasApplianceKw (lower (cs "my stove is broken")) = false ∧
    modelRuleFires (cs "my stove is broken") = false ∧
    (containsSub (lower (cs "my stove is broken")) (cs "appliance") &&
      brandAny (lower (cs "my stove is broken"))) = false ∧
    isInScope (cs "my stove is broken") = false :=
  ⟨by decide, by decide, by decide, by decide,
   c2_out_of_scope_rejected _ (by decide) (by decide) (by decide) (by decide)⟩

/-- The compatibility scenario query of the specification. -/
def c3Query : List Char :=
  cs "Will part 67003753 work with my GD5SHAAXNQ00 dishwasher?"

/-- C3 counterexample: on the scenario text the model-number regex
`[A-Za-z]{2,5}\d{3,7}[A-Za-z0-9]{0,5}` matches nothing (`GD5SHAAXNQ00` has
only one digit after its leading letters and only two at its end), so no
`model_number` slot is extracted, contradicting the claimed
`model_number="GD5SHAAXNQ00"`. -/
theorem c3_counterexample :
    (extractParams (cs "compatibility") c3Query).modelNumber = none ∧
    (extractParams (cs "compatibility") c3Query).modelNumber ≠
      some (cs "GD5SHAAXNQ00") :=
  ⟨by decide, by decide⟩

/-- C3 amended: the scenario text is classified `compatibility` and the
extractor finds `part_number="67003753"`, but no model number is extracted. -/
theorem c3_compatibility_scenario :
    extractIntent c3Query = cs "compatibility" ∧
    (extractParams (cs "compatibility") c3Query).partNumber = some (cs "67003753") ∧
    (extractParams (cs "compatibility") c3Query).modelNumber = none :=
  ⟨by decide, by decide, by decide⟩

/-- A context whose previous turn installed a part: `last_intent="install"`,
`last_part_number="W10295370A"`. -/
def ctxC4 : Ctx := ⟨some (cs "install"), some (cs "W10295370A"), none, none, none⟩

/-- C4 counterexample: on `"add to cart"` with `ctxC4`, the turn is detected
as context-dependent and resolved to intent `cart`, yet `process_query`
returns with the context entirely unchanged — in particular `last_intent`
stays `install` instead of becoming the dispatched intent `cart`. -/
theorem c4_counterexample :
    isContextDependent ctxC4 (cs "add to cart") = true ∧
    enhanceWithContext ctxC4 (cs "add to cart") =
      some (cs "cart", cs "Add part W10295370A to my cart") ∧
    processQuery trivTools ctxC4 (cs "add to cart") =
      Except.ok (⟨nmCart, [], some (cartFollowUp (cs "add"))⟩, ctxC4) ∧
    ctxC4.lastIntent ≠ some (cs "cart") :=
  ⟨by decide, by decide, by decide, by decide⟩

/-- C4 amended: on every successfully resolved context-dependent turn,
`process_query` dispatches the resolved intent on the rewritten text and
returns immediately — the conversation context is NOT updated (it is returned
unchanged; `last_intent` does not become the dispatched intent). -/
theorem c4_context_resolution_skips_update (T : Tools) (ctx : Ctx) (q i eq : List Char)
    (h1 : isContextDependent ctx q = true)
    (h2 : enhanceWithContext ctx q = some (i, eq)) :
    processQuery T ctx q = Except.ok (runToolForIntent T i eq, ctx) := by
  unfold processQuery
  rw [if_pos h1, h2]

/-- C4 witness: the amended theorem applied to the counterexample turn. -/
theorem c4_witness :
    isContextDependent ctxC4 (cs "add to cart") = true ∧
    enhanceWithContext ctxC4 (cs "add to cart") =
      some (cs "cart", cs "Add part W10295370A to my cart") ∧
    processQuery trivTools ctxC4 (cs "add to cart") =
      Except.ok
        (runToolForIntent trivTools (cs "cart") (cs "Add part W10295370A to my cart"),
         ctxC4) :=
  ⟨by decide, by decide,
   c4_context_resolution_skips_update trivTools ctxC4 _ _ _ (by decide) (by decide)⟩

/-- A context whose previous turn was a lookup: `last_intent="lookup"`,
`last_part_number="W10295370A"`. -/
def ctxC5 : Ctx := ⟨some (cs "lookup"), some (cs "W10295370A"), none, none, none⟩

/-- A context whose previous turn was a diagnosis: `last_intent="diagnose"`,
`last_part_number="W10295370A"`. -/
def ctxC5w : Ctx := ⟨some (cs "diagnose"), some (cs "W10295370A"), none, none, none⟩

/-- C5 counterexample: for `"add to cart"` with `last_intent="lookup"` and
`last_part_number` set, none of resolution rules 1-4 applies in the claim's
sense (no install/how/installation, compatible/work-with, where/find/get
language), `cart` and `add` are present — yet the resolver returns
`(None, None)` instead of the claimed cart rewrite, because the cart branch
is an `elif` of the rule-4 `if` and is skipped when `last_intent` is
`lookup`. -/
theorem c5_counterexample :
    ctxC5.lastIntent = some (cs "lookup") ∧
    ctxC5.lastPartNumber = some (cs "W10295370A") ∧
    containsSub (strip (lower (cs "add to cart"))) (cs "cart") = true ∧
    containsSub (strip (lower (cs "add to cart"))) (cs "add") = true ∧
    containsSub (strip (lower (cs "add to cart"))) (cs "install") = false ∧
    containsSub (strip (lower (cs "add to cart"))) (cs "installation") = false ∧
    containsSub (strip (lower (cs "add to cart"))) (cs "how") = false ∧
    containsSub (strip (lower (cs "add to cart"))) (cs "compatible") = false ∧
    containsSub (strip (lower (cs "add to cart"))) (cs "work with") = false ∧
    containsSub (strip (lower (cs "add to cart"))) (cs "where") = false ∧
    containsSub (strip (lower (cs "add to cart"))) (cs "find") = false ∧
    containsSub (strip (lower (cs "add to cart"))) (cs "get") = false ∧
    enhanceWithContext ctxC5 (cs "add to cart") = none :=
  ⟨by decide, by decide, by decide, by decide, by decide, by decide, by decide,
   by decide, by decide, by decide, by decide, by decide, by decide⟩

/-- C5 amended: the cart resolution rule fires as claimed only when
`last_intent` is additionally NOT `lookup` or `compatibility`: under the
claim's other conditions it then returns intent `cart` with an add-style
rewrite when `add` occurs and a view-style rewrite otherwise. -/
theorem c5_cart_rule_needs_other_intent (ctx : Ctx) (q li pn : List Char)
    (hli : ctx.lastIntent = some li)
    (hl1 : li ≠ cs "lookup") (hl2 : li ≠ cs "compatibility")
    (hpn : ctx.lastPartNumber = some pn)
    (hcart : (containsSub (strip (lower q)) (cs "cart") ||
              containsSub (strip (lower q)) (cs "add") ||
              containsSub (strip (lower q)) (cs "basket")) = true)
    (hhow : containsSub (strip (lower q)) (cs "how") = false)
    (hinst : containsSub (strip (lower q)) (cs "install") = false)
    (hinstn : containsSub (strip (lower q)) (cs "installation") = false)
    (hcompat : containsSub (strip (lower q)) (cs "compatible") = false)
    (hww : containsSub (strip (lower q)) (cs "work with") = false)
    (hwhere : containsSub (strip (lower q)) (cs "where") = false)
    (hfind : containsSub (strip (lower q)) (cs "find") = false)
    (hget : containsSub (strip (lower q)) (cs "get") = false) :
    enhanceWithContext ctx q =
      some (cs "cart",
        if containsSub (strip (lower q)) (cs "add") = true then
          cs "Add part " ++ pn ++ cs " to my cart"
        else cs "View my cart") := by
  unfold enhanceWithContext
  rw [hli]
  dsimp only
  rw [if_neg (by simp [hhow, hinst, hinstn])]
  rw [if_neg (by simp [hcompat, hww])]
  rw [if_neg (by simp [hwhere, hfind, hget])]
  unfold enhanceLate
  rw [if_neg (fun h => h.elim hl1 hl2)]
  rw [if_pos hcart, hpn]
  dsimp only
  split <;> rfl

/-- C5 witness: the amended theorem applied with `last_intent="diagnose"`. -/
theorem c5_witness :
    ctxC5w.lastIntent = some (cs "diagnose") ∧
    enhanceWithContext ctxC5w (cs "add to cart") =
      some (cs "cart",
        if containsSub (strip (lower (cs "add to cart"))) (cs "add") = true then
          cs "Add part " ++ cs "W10295370A" ++ cs " to my cart"
        else cs "View my cart") :=
  ⟨by decide,
   c5_cart_rule_needs_other_intent ctxC5w (cs "add to cart") (cs "diagnose")
     (cs "W10295370A") (by decide) (by decide) (by decide) (by decide) (by decide)
     (by decide) (by decide) (by decide) (by decide) (by decide) (by decide)
     (by decide) (by decide)⟩

/-- C6 counterexample: the one-word query `"order"` contains `order` but
`_is_context_dependent_query` returns false: with at most five words control
enters the short-query branch, whose pronoun and prefix tests both fail, and
the order branch — an `elif` — is never reached. -/
theorem c6_counterexample :
    containsSub (strip (lower (cs "order"))) (cs "order") = true ∧
    isContextDependent freshCtx (cs "order") = false :=
  ⟨by decide, by decide⟩

/-- C6 amended: a query containing `order`, `status` or `track` is detected
as context-dependent provided it has more than five words and contains none
of `cart`, `add`, `basket` (the two earlier branches of the `if`/`elif`
chain). -/
theorem c6_order_branch_guarded (ctx : Ctx) (q : List Char)
    (hlen : 5 < (words (strip (lower q))).length)
    (hc : containsSub (strip (lower q)) (cs "cart") = false)
    (ha : containsSub (strip (lower q)) (cs "add") = false)
    (hb : containsSub (strip (lower q)) (cs "basket") = false)
    (ho : (containsSub (strip (lower q)) (cs "order") ||
           containsSub (strip (lower q)) (cs "status") ||
           containsSub (strip (lower q)) (cs "track")) = true) :
    isContextDependent ctx q = true := by
  unfold isContextDependent
  rw [if_neg (by omega : ¬(words (strip (lower q))).length ≤ 5)]
  rw [if_neg (by simp [hc, ha, hb])]
  rw [if_pos ho]

/-- C6 witness: the amended theorem on a seven-word order-status query. -/
theorem c6_witness :
    5 < (words (strip (lower (cs "please check the status of my dishwasher order now")))).length ∧
    isContextDependent freshCtx (cs "please check the status of my dishwasher order now") = true :=
  ⟨by decide,
   c6_order_branch_guarded freshCtx _ (by decide) (by decide) (by decide) (by decide)
     (by decide)⟩

/-- The cart scenario query of the specification. -/
def c7Query : List Char := cs "add 3 units of W10295370A to my cart"

/-- C7 counterexample: on a fresh agent the scenario query never reaches the
cart intent — `is_in_scope` rejects it (no appliance, part or brand keyword
and no accepted model number), so `process_query` returns the canned
out-of-scope dispatch, whose tool name is not the cart tool's. -/
theorem c7_counterexample :
    processQuery trivTools freshCtx c7Query = Except.ok (oosDispatch, freshCtx) ∧
    oosDispatch.toolName ≠ nmCart :=
  ⟨by decide, by decide⟩

/-- C7 amended: on a fresh agent the scenario query is rejected by the scope
filter and `process_query` returns the canned out-of-scope result unchanged
context; had the cart extractor been invoked on this text it would indeed
have produced `action="add"`, `part_number="W10295370A"`, `quantity="3"`. -/
theorem c7_cart_scenario_out_of_scope :
    isInScope c7Query = false ∧
    processQuery trivTools freshCtx c7Query = Except.ok (oosDispatch, freshCtx) ∧
    extractParams (cs "cart") c7Query =
      { emptyParams with partNumber := some (cs "W10295370A"),
                         quantity := some (cs "3"), action := some (cs "add") } :=
  ⟨by decide, by decide, by decide⟩
